import Mathlib

/-!
Verification of the gdex-backend swap proxy (`src/server.js`).

This file is a shallow embedding of the quote/swap transaction-building
pipeline of the server: the numeric helpers (`toHex`, `bnFromHex`,
`decStringToHex`, `normalizeGasField`), the validation helpers
(`isHexAddress`, `mustBeUintString`, `clampNumber`), the upstream parameter
assembly (`buildParams`), the two route handlers (`/quote`, `/swap`) up to
and after their single upstream aggregator call, the RPC augmentation
helpers (`estimateGasWithBuffer`, `suggestEip1559Fees`), and the upstream
error contract of `call0x`.

Modelling conventions:
* JS `BigInt` values are `Nat` (all amounts in the server are nonnegative).
* JS numbers are `ℚ` (exact on every value the claims quantify over); `NaN`
  is a separate constructor of `JsNum` because `clampNumber` tests for it.
* JS strings are `String`; an absent (`undefined`/`null`) field is `none`.
* A JS function that can throw is `Option`/`Except`-valued; `none`/`.error`
  is the thrown case, and a `try/catch` in the source becomes a `match`.
* Network effects are parameters: the aggregator's HTTP response and the
  node's JSON-RPC responses are inputs (`FetchResp`, `RpcEnv`), and a
  handler is split at its upstream call into a pure "before" function
  (which either rejects or produces the outgoing query parameters) and a
  pure "after" function of the upstream response.
-/

namespace GDex

/-! ## Numeric helpers: JS `BigInt`, hex and decimal strings

`toHex` models `"0x" + n.toString(16)` (server.js line 164), and
`jsBigIntOfString` models `BigInt(s)` on the string shapes that occur in
this server: the empty string (value 0), a `0x`-prefixed hex string, and a
base-10 digit string.  Other accepted JS forms (whitespace, sign, `0b`/`0o`
prefixes, upper-case `0X`) never occur here and are mapped to `none`
(a throw), as are all strings `BigInt` rejects. -/

/-- Hex digit character for a value below 16, lower case as produced by
JS `Number.prototype.toString(16)`: `0`–`9` then `a`–`f`. -/
def hexDigitChar (d : Nat) : Char :=
  if d < 10 then Char.ofNat (48 + d) else Char.ofNat (87 + d)

/-- Big-endian hex digit list of `n`, by fuel-based recursion so that the
kernel can evaluate it; `toHexList` supplies enough fuel. -/
def toHexDigitsAux : Nat → Nat → List Char
  | 0, _ => []
  | fuel + 1, n =>
    if n < 16 then [hexDigitChar n]
    else toHexDigitsAux fuel (n / 16) ++ [hexDigitChar (n % 16)]

/-- Big-endian hex digits of `n`, no leading zeros, `['0']` for 0 — exactly
the character sequence of JS `n.toString(16)` for a nonnegative BigInt. -/
def toHexList (n : Nat) : List Char :=
  toHexDigitsAux (n + 1) n

/-- Model of `toHex` (server.js line 164): `"0x" + nBigInt.toString(16)`. -/
def toHex (n : Nat) : String :=
  "0x" ++ String.mk (toHexList n)

/-- Value of a decimal digit character, `none` otherwise. -/
def decCharVal (c : Char) : Option Nat :=
  if 48 ≤ c.toNat ∧ c.toNat ≤ 57 then some (c.toNat - 48) else none

/-- Value of a hex digit character (either case), `none` otherwise. -/
def hexCharVal (c : Char) : Option Nat :=
  if 48 ≤ c.toNat ∧ c.toNat ≤ 57 then some (c.toNat - 48)
  else if 97 ≤ c.toNat ∧ c.toNat ≤ 102 then some (c.toNat - 87)
  else if 65 ≤ c.toNat ∧ c.toNat ≤ 70 then some (c.toNat - 55)
  else none

/-- Accumulator-passing digit evaluation in base `bs`: extend `acc` with
each digit in turn, failing on the first character that is not a digit of
the base. -/
def foldBase (bs : Nat) (digVal : Char → Option Nat) : List Char → Nat → Option Nat
  | [], acc => some acc
  | c :: cs, acc =>
    match digVal c with
    | some d => foldBase bs digVal cs (acc * bs + d)
    | none => none

/-- Hex digit-list parse; `none` on the empty list (JS `BigInt("0x")`
throws). -/
def parseHexDigits (cs : List Char) : Option Nat :=
  if cs.isEmpty then none else foldBase 16 hexCharVal cs 0

/-- Decimal digit-list parse; `none` on the empty list. -/
def parseDecDigits (cs : List Char) : Option Nat :=
  if cs.isEmpty then none else foldBase 10 decCharVal cs 0

/-- Whether a character list begins with the two characters `0x`, as JS
`String.prototype.startsWith("0x")` tests. -/
def startsWith0x : List Char → Bool
  | c1 :: c2 :: _ => c1 == '0' && c2 == 'x'
  | _ => false

/-- Model of JS `BigInt(s)` on the string shapes reaching it in this
server (empty, `0x`-hex, decimal digits); `none` is a thrown
`SyntaxError`. -/
def jsBigIntOfString (s : String) : Option Nat :=
  if s.data.isEmpty then some 0
  else if startsWith0x s.data then parseHexDigits (s.data.drop 2)
  else parseDecDigits s.data

/-- Model of `bnFromHex` (server.js line 168): `BigInt(hex)`. -/
def bnFromHex (hex : String) : Option Nat :=
  jsBigIntOfString hex

/-- Model of `decStringToHex` (server.js lines 202-209): convert a decimal
string to a `0x`-hex string, `"0x0"` when `BigInt` throws; `decStr || "0"`
replaces the empty (falsy) string by `"0"`. -/
def decStringToHex (decStr : String) : String :=
  match jsBigIntOfString (if decStr = "" then "0" else decStr) with
  | some n => toHex n
  | none => "0x0"

/-! ## Round-trip lemmas for the hex rendering -/

theorem toHexDigitsAux_succ (fuel n : Nat) :
    toHexDigitsAux (fuel + 1) n =
      if n < 16 then [hexDigitChar n]
      else toHexDigitsAux fuel (n / 16) ++ [hexDigitChar (n % 16)] := rfl

theorem toHexDigitsAux_fuel (f₁ f₂ n : Nat) (h₁ : n < f₁) (h₂ : n < f₂) :
    toHexDigitsAux f₁ n = toHexDigitsAux f₂ n := by
  induction f₁ generalizing f₂ n with
  | zero => omega
  | succ f ih =>
    cases f₂ with
    | zero => omega
    | succ g =>
      rw [toHexDigitsAux_succ, toHexDigitsAux_succ]
      by_cases hn : n < 16
      · rw [if_pos hn, if_pos hn]
      · have hd : n / 16 < n := Nat.div_lt_self (by omega) (by omega)
        rw [if_neg hn, if_neg hn, ih g (n / 16) (by omega) (by omega)]

theorem toHexList_small {n : Nat} (h : n < 16) :
    toHexList n = [hexDigitChar n] := by
  rw [toHexList, toHexDigitsAux_succ, if_pos h]

theorem toHexList_step {n : Nat} (h : 16 ≤ n) :
    toHexList n = toHexList (n / 16) ++ [hexDigitChar (n % 16)] := by
  have hd : n / 16 < n := Nat.div_lt_self (by omega) (by omega)
  calc toHexList n = toHexDigitsAux (n + 1) n := rfl
    _ = toHexDigitsAux n (n / 16) ++ [hexDigitChar (n % 16)] := by
        rw [toHexDigitsAux_succ, if_neg (by omega)]
    _ = toHexDigitsAux (n / 16 + 1) (n / 16) ++ [hexDigitChar (n % 16)] := by
        rw [toHexDigitsAux_fuel n (n / 16 + 1) (n / 16) (by omega) (by omega)]
    _ = toHexList (n / 16) ++ [hexDigitChar (n % 16)] := rfl

theorem toHexList_ne_nil (n : Nat) : toHexList n ≠ [] := by
  by_cases h : n < 16
  · simp [toHexList_small h]
  · simp [toHexList_step (show 16 ≤ n by omega)]

theorem foldBase_append (bs : Nat) (digVal : Char → Option Nat)
    (l₁ l₂ : List Char) :
    ∀ acc m, foldBase bs digVal l₁ acc = some m →
      foldBase bs digVal (l₁ ++ l₂) acc = foldBase bs digVal l₂ m := by
  induction l₁ with
  | nil =>
    intro acc m h
    obtain rfl : acc = m := by simpa [foldBase] using h
    rfl
  | cons c cs ih =>
    intro acc m h
    rw [List.cons_append]
    simp only [foldBase] at h ⊢
    cases hc : digVal c with
    | none =>
      rw [hc] at h
      exact Option.noConfusion h
    | some d =>
      rw [hc] at h
      exact ih (acc * bs + d) m h

theorem hexCharVal_hexDigitChar : ∀ d : Fin 16,
    hexCharVal (hexDigitChar d.val) = some d.val := by decide

theorem hexCharVal_hexDigitChar_of_lt {d : Nat} (h : d < 16) :
    hexCharVal (hexDigitChar d) = some d :=
  hexCharVal_hexDigitChar ⟨d, h⟩

theorem foldBase_toHexList (n : Nat) :
    ∀ acc, foldBase 16 hexCharVal (toHexList n) acc =
      some (acc * 16 ^ (toHexList n).length + n) := by
  induction n using Nat.strong_induction_on with
  | _ n ih =>
    intro acc
    by_cases h : n < 16
    · rw [toHexList_small h]
      simp only [foldBase, hexCharVal_hexDigitChar_of_lt h, List.length_singleton, pow_one]
    · have hd : n / 16 < n := Nat.div_lt_self (by omega) (by omega)
      rw [toHexList_step (show 16 ≤ n by omega)]
      rw [foldBase_append 16 hexCharVal _ _ acc _ (ih (n / 16) hd acc)]
      simp only [foldBase, hexCharVal_hexDigitChar_of_lt (Nat.mod_lt n (by omega))]
      refine congrArg some ?_
      rw [List.length_append, List.length_singleton, pow_succ, ← Nat.mul_assoc]
      have hdm : 16 * (n / 16) + n % 16 = n := Nat.div_add_mod n 16
      set A := acc * 16 ^ (toHexList (n / 16)).length with hA
      omega

theorem parseHexDigits_toHexList (n : Nat) :
    parseHexDigits (toHexList n) = some n := by
  rw [parseHexDigits, if_neg (by simpa using toHexList_ne_nil n), foldBase_toHexList]
  simp

theorem data_toHex (n : Nat) : (toHex n).data = '0' :: 'x' :: toHexList n := by
  simp [toHex, String.mk, String.data]

/-- Parsing a rendered hex string recovers the number: the model of
`bnFromHex(toHex(n)) = n`. -/
theorem bnFromHex_toHex (n : Nat) : bnFromHex (toHex n) = some n := by
  simp [bnFromHex, jsBigIntOfString, data_toHex, startsWith0x, parseHexDigits_toHexList]

/-! ## Constants and validation helpers (server.js lines 55-87) -/

/-- Native-asset placeholder address (server.js line 67). -/
def ETH_SENTINEL : String := "0xEeeeeEeeeEeEeeEeEeEeeEEEeeeeEeeeeeeeEEeE"

/-- Integrator fee recipient (server.js line 64). -/
def FEE_RECIPIENT : String := "0x932bf0a8746c041c00131640123fa6c847835d6f"

/-- Integrator fee percentage, `0.001` (server.js line 65). -/
def FEE_PERCENTAGE : ℚ := 1 / 1000

/-- Decimal digit predicate, `[0-9]`. -/
def isDigitCh (c : Char) : Bool :=
  48 ≤ c.toNat && c.toNat ≤ 57

/-- Hex digit predicate, `[a-fA-F0-9]`. -/
def isHexDigitCh (c : Char) : Bool :=
  isDigitCh c || (97 ≤ c.toNat && c.toNat ≤ 102) || (65 ≤ c.toNat && c.toNat ≤ 70)

/-- Model of `isHexAddress` (server.js lines 75-77): the regex
`^0x[a-fA-F0-9]{40}$` on a string value. -/
def isHexAddress (a : String) : Bool :=
  match a.data with
  | '0' :: 'x' :: rest => rest.length == 40 && rest.all isHexDigitCh
  | _ => false

/-- Model of `mustBeUintString` (server.js lines 79-82): the regex
`^[0-9]+$` on a string value. -/
def mustBeUintString (x : String) : Bool :=
  !x.data.isEmpty && x.data.all isDigitCh

/-- A JS number: either `NaN` or a finite value, modelled exactly as a
rational.  (Infinities never occur in this pipeline.) -/
inductive JsNum where
  | nan
  | num (q : ℚ)
deriving DecidableEq

/-- Model of `clampNumber` (server.js lines 84-87): `NaN` maps to the
minimum, otherwise `Math.min(max, Math.max(min, n))`. -/
def clampNumber (n : JsNum) (lo hi : ℚ) : ℚ :=
  match n with
  | .nan => lo
  | .num q => min hi (max lo q)

/-- JS `Math.round`: round half toward positive infinity. -/
def jsRound (q : ℚ) : ℤ :=
  ⌊q + 1 / 2⌋

/-- JS truthiness of a possibly-absent string: absent, `null` and the empty
string are falsy. -/
def strTruthy : Option String → Bool
  | none => false
  | some s => !(s == "")

/-- The ternary `t === "ETH" ? ETH_SENTINEL : t` used by both handlers to
normalize the literal symbol to the sentinel. -/
def normTok (t : String) : String :=
  if t == "ETH" then ETH_SENTINEL else t

/-! ## Request bodies and upstream parameter assembly -/

/-- The fields of a request body that the two swap routes read.  `none`
models an absent (or `null`) field; `slippagePercentage` is `none` when the
field is absent or not of JS type number. -/
structure ReqBody where
  sellToken : Option String
  buyToken : Option String
  sellAmount : Option String
  taker : Option String
  slippagePercentage : Option JsNum
  chainId : Option Nat
deriving DecidableEq

/-- The body object passed to `buildParams` at its two call sites: the
spread of the request body with both tokens normalized and the sell amount
cast to a string. -/
structure ParamsInput where
  chainId : Option Nat
  sellToken : String
  buyToken : String
  sellAmount : String
  taker : Option String
  slippagePercentage : Option JsNum
deriving DecidableEq

/-- Model of `buildParams` (server.js lines 119-146).  `URLSearchParams` is
modelled as an ordered key/value list; every `set` here is on a fresh key,
so each one appends.  `String(FEE_PERCENTAGE)` is the literal `"0.001"`. -/
def buildParams (b : ParamsInput) : List (String × String) :=
  let chainId : Nat :=
    match b.chainId with
    | some c => if c = 0 then 1 else c
    | none => 1
  let slip : JsNum :=
    match b.slippagePercentage with
    | some j => j
    | none => .num (1 / 50)
  let safeSlip : ℚ := clampNumber slip 0 (1 / 5)
  let slippageBps : ℤ := jsRound (safeSlip * 10000)
  let base := [("chainId", toString chainId), ("sellToken", b.sellToken),
               ("buyToken", b.buyToken), ("sellAmount", b.sellAmount),
               ("slippageBps", toString slippageBps)]
  let withTaker :=
    match b.taker with
    | some t => if t = "" then base else base ++ [("taker", t)]
    | none => base
  if FEE_RECIPIENT ≠ "" ∧ 0 < FEE_PERCENTAGE then
    withTaker ++ [("feeRecipient", FEE_RECIPIENT), ("buyTokenPercentageFee", "0.001")]
  else withTaker

/-- A handler's behaviour up to its single upstream aggregator call: either
an early JSON error response (no network traffic at all), or the query
parameters of the upstream GET request it proceeds to issue. -/
inductive Phase1 where
  | reject (status : Nat) (message : String)
  | callUpstream (params : List (String × String))
deriving DecidableEq

/-- Model of the `/quote` handler before its upstream call (server.js lines
227-252): the three validation gates, then `buildParams` on the normalized
body. -/
def quoteStep1 (b : ReqBody) : Phase1 :=
  let sellToken := b.sellToken.getD ""
  let buyToken := b.buyToken.getD ""
  if !strTruthy b.sellToken || !strTruthy b.buyToken || b.sellAmount.isNone then
    .reject 400 "Missing sellToken/buyToken/sellAmount"
  else if !(sellToken == ETH_SENTINEL) && !(sellToken == "ETH") && !isHexAddress sellToken then
    .reject 400 "Invalid sellToken address"
  else if !(buyToken == ETH_SENTINEL) && !(buyToken == "ETH") && !isHexAddress buyToken then
    .reject 400 "Invalid buyToken address"
  else if !mustBeUintString (b.sellAmount.getD "") then
    .reject 400 "sellAmount must be an integer string (wei)"
  else
    .callUpstream (buildParams
      { chainId := b.chainId
        sellToken := normTok sellToken
        buyToken := normTok buyToken
        sellAmount := b.sellAmount.getD ""
        taker := b.taker
        slippagePercentage := b.slippagePercentage })

/-- Model of the `/swap` handler before its upstream call (server.js lines
266-294): the three validation gates (note: no address-format check on the
tokens, only on `taker`), then `buildParams` on the normalized body plus
`intentOnFilling=true`. -/
def swapStep1 (b : ReqBody) : Phase1 :=
  if !strTruthy b.sellToken || !strTruthy b.buyToken ||
      !strTruthy b.sellAmount || !strTruthy b.taker then
    .reject 400 "Missing sellToken/buyToken/sellAmount/taker"
  else if !isHexAddress (b.taker.getD "") then
    .reject 400 "Invalid taker address"
  else if !mustBeUintString (b.sellAmount.getD "") then
    .reject 400 "sellAmount must be an integer string (wei)"
  else
    .callUpstream (buildParams
      { chainId := b.chainId
        sellToken := normTok (b.sellToken.getD "")
        buyToken := normTok (b.buyToken.getD "")
        sellAmount := b.sellAmount.getD ""
        taker := b.taker
        slippagePercentage := b.slippagePercentage }
      ++ [("intentOnFilling", "true")])

/-! ## Transaction building and RPC augmentation (server.js lines 148-219, 296-350) -/

/-- Model of `normalizeGasField` (server.js lines 212-219): `null` stays
`null`, a `0x`-prefixed string passes through, a decimal digit string is
converted to hex, anything else becomes `null`. -/
def normalizeGasField (g : Option String) : Option String :=
  match g with
  | none => none
  | some s =>
    if startsWith0x s.data then some s
    else if mustBeUintString s then
      match jsBigIntOfString s with
      | some n => some (toHex n)
      | none => none
    else none

/-- The nested `transaction` object of the upstream firm quote; each field
may be absent. -/
structure RawTx where
  toAddr : Option String
  data : Option String
  value : Option String
  gas : Option String
deriving DecidableEq

/-- The upstream firm-quote body, reduced to the one field `/swap` reads. -/
structure QuoteData where
  transaction : Option RawTx
deriving DecidableEq

/-- The outbound transaction object `/swap` returns to the frontend. -/
structure Tx where
  toAddr : String
  data : String
  value : String
  gas : Option String
  maxFeePerGas : Option String
  maxPriorityFeePerGas : Option String
deriving DecidableEq

/-- The candidate transaction submitted to `eth_estimateGas`; `fromAddr`
models the JS field `from` (set to the taker, server.js line 327). -/
structure EstTx where
  fromAddr : String
  toAddr : String
  data : String
  value : String
deriving DecidableEq

/-- Outcome of one JSON-RPC call: a thrown error (network failure, JSON-RPC
error member, or malformed result) or a returned result value. -/
inductive RpcCall (α : Type) where
  | throws
  | returns (val : α)
deriving DecidableEq

/-- The latest-block object, reduced to the one field read. -/
structure BlockObj where
  baseFeePerGas : Option String
deriving DecidableEq

/-- The node RPC endpoint as the handler observes it during one request:
whether `RPC_URL` is configured, and the outcome of each of the three
methods the handler may invoke.  `eth_estimateGas` is a function of the
candidate transaction it is given. -/
structure RpcEnv where
  configured : Bool
  estimateGas : EstTx → RpcCall String
  getBlockLatest : RpcCall (Option BlockObj)
  maxPriorityFeePerGas : RpcCall String

/-- Model of `estimateGasWithBuffer` (server.js lines 193-199): estimate,
parse the hex, add the 20% buffer `gas + gas / 5` (BigInt floor division),
render as hex.  `none` is a thrown error (RPC failure or unparseable
result). -/
def estimateGasWithBuffer (env : RpcEnv) (tx : EstTx) : Option String :=
  match env.estimateGas tx with
  | .throws => none
  | .returns gasHex =>
    match bnFromHex gasHex with
    | none => none
    | some gas => some (toHex (gas + gas / 5))

/-- The fee suggestion object of `suggestEip1559Fees`. -/
structure Fees where
  maxPriorityFeePerGas : String
  maxFeePerGas : String
deriving DecidableEq

/-- Model of `suggestEip1559Fees` (server.js lines 175-191): base fee from
the latest block (0 when the block or its `baseFeePerGas` is absent or
falsy), tip from `eth_maxPriorityFeePerGas` with the fixed fallback
1500000000 wei when that call (or its parse) throws inside the inner
`try`, then `maxFee = baseFee * 2 + tip`.  `none` is a thrown error of the
whole function: the block call failed, or the base-fee hex did not parse. -/
def suggestEip1559Fees (env : RpcEnv) : Option Fees :=
  match env.getBlockLatest with
  | .throws => none
  | .returns blk =>
    let baseFeeOpt : Option Nat :=
      match blk with
      | none => some 0
      | some b =>
        match b.baseFeePerGas with
        | none => some 0
        | some s => if s = "" then some 0 else bnFromHex s
    match baseFeeOpt with
    | none => none
    | some baseFee =>
      let tip : Nat :=
        match env.maxPriorityFeePerGas with
        | .throws => 1500000000
        | .returns tipHex =>
          match bnFromHex tipHex with
          | some t => t
          | none => 1500000000
      some { maxPriorityFeePerGas := toHex tip, maxFeePerGas := toHex (baseFee * 2 + tip) }

/-- Derivation of the outbound `value` (server.js lines 304-318): the sell
amount in hex when the normalized sell token is the native sentinel;
otherwise the upstream value (hex passed through, anything else through
`decStringToHex`), or `"0x0"` when the upstream value is `null`. -/
def deriveValue (normalizedSell sellAmountS : String) (rawValue : Option String) : String :=
  if normalizedSell = ETH_SENTINEL then decStringToHex sellAmountS
  else
    match rawValue with
    | some v => if startsWith0x v.data then v else decStringToHex v
    | none => "0x0"

/-- The base transaction assembled from the upstream quote before RPC
augmentation (server.js lines 304-322): `to`/`data` copied, `value`
derived, `gas` normalized when the upstream supplied one. -/
def baseTx (rawTx : RawTx) (normalizedSell sellAmountS : String) : Tx :=
  { toAddr := rawTx.toAddr.getD ""
    data := rawTx.data.getD ""
    value := deriveValue normalizedSell sellAmountS rawTx.value
    gas := normalizeGasField rawTx.gas
    maxFeePerGas := none
    maxPriorityFeePerGas := none }

/-- The RPC augmentation block (server.js lines 325-347): skipped without a
configured RPC URL; otherwise gas estimation (with `from = taker`) and the
fee suggestion each run in their own `try/catch`, so each failure leaves
the transaction exactly as the other step left it. -/
def augmentTx (env : RpcEnv) (taker : String) (tx : Tx) : Tx :=
  if env.configured then
    let estTx : EstTx := { fromAddr := taker, toAddr := tx.toAddr, data := tx.data, value := tx.value }
    let tx1 :=
      match estimateGasWithBuffer env estTx with
      | some gasHex => { tx with gas := some gasHex }
      | none => tx
    match suggestEip1559Fees env with
    | some fees => { tx1 with maxFeePerGas := some fees.maxFeePerGas,
                              maxPriorityFeePerGas := some fees.maxPriorityFeePerGas }
    | none => tx1
  else tx

/-- The `/swap` handler's response once the upstream call has returned:
either the 500 for a quote without transaction fields, or (status 200,
`res.json({tx})`) with the built and augmented transaction. -/
inductive SwapResp where
  | errResp (status : Nat) (message : String)
  | txResp (tx : Tx)
deriving DecidableEq

/-- Model of the `/swap` handler after its upstream call (server.js lines
296-350), as a pure function of the upstream quote body and the RPC
environment.  `normalizedSell` and `sellAmountS` are the handler's local
variables of the same names. -/
def swapStep2 (q : QuoteData) (normalizedSell sellAmountS taker : String)
    (env : RpcEnv) : SwapResp :=
  let rawTx := q.transaction.getD { toAddr := none, data := none, value := none, gas := none }
  if !strTruthy rawTx.toAddr || !strTruthy rawTx.data then
    .errResp 500 "0x quote did not return tx fields"
  else
    .txResp (augmentTx env taker (baseTx rawTx normalizedSell sellAmountS))

/-! ## The upstream HTTP error contract (server.js lines 89-117, 256-262) -/

/-- A JSON object body, reduced to the one field `call0x` reads. -/
structure JsonObj where
  message : Option String
deriving DecidableEq

/-- The `data` value `call0x` builds from the upstream response text:
either the parsed JSON object, or `{ raw: text }` when parsing failed. -/
inductive BodyData where
  | obj (j : JsonObj)
  | rawWrap (text : String)
deriving DecidableEq

/-- An upstream HTTP response as `fetch` delivers it: status, body text,
and the result of `JSON.parse` on that text (`none` when parsing throws). -/
structure FetchResp where
  status : Nat
  text : String
  parsed : Option JsonObj
deriving DecidableEq

/-- The error `call0x` throws on a non-success upstream status: carries the
upstream status, a message, and the parsed-or-wrapped body as `details`. -/
structure UpErr where
  status : Nat
  message : String
  details : BodyData
deriving DecidableEq

/-- Model of `res.ok` of `fetch`: status in the inclusive range 200-299. -/
def respOk (status : Nat) : Bool :=
  200 ≤ status && status ≤ 299

/-- JS `data.message` under truthiness: `undefined` on the raw wrapper, and
the empty string is falsy. -/
def dataMessage : BodyData → Option String
  | .obj j =>
    match j.message with
    | some m => if m = "" then none else some m
    | none => none
  | .rawWrap _ => none

/-- Model of `call0x` (server.js lines 89-117): parse the body (empty text
gives `{}`, unparseable text gives `{ raw: text }`), succeed on `res.ok`,
otherwise throw an error with the upstream status, the body's message (or
a generic one), and the body as details. -/
def call0x (resp : FetchResp) : Except UpErr BodyData :=
  let data : BodyData :=
    if resp.text = "" then .obj { message := none }
    else
      match resp.parsed with
      | some j => .obj j
      | none => .rawWrap resp.text
  if respOk resp.status then .ok data
  else
    .error { status := resp.status
             message := (dataMessage data).getD ("0x request failed: " ++ toString resp.status)
             details := data }

/-- The JSON error body the `/quote` catch block sends. -/
structure ErrJson where
  message : String
  details : Option BodyData
deriving DecidableEq

/-- Model of the `/quote` catch block (server.js lines 256-262):
`res.status(err.status || 500).json({message: err.message || "Quote
failed", details: err.details || null})`. -/
def quoteCatch (e : UpErr) : Nat × ErrJson :=
  (if e.status = 0 then 500 else e.status,
   { message := if e.message = "" then "Quote failed" else e.message
     details := some e.details })

/-! ## Supporting lemmas -/

theorem parseDecDigits_of_startsWith0x {l : List Char} (h : startsWith0x l = true) :
    parseDecDigits l = none := by
  cases l with
  | nil => simp [startsWith0x] at h
  | cons c1 t =>
    cases t with
    | nil => simp [startsWith0x] at h
    | cons c2 t2 =>
      rw [startsWith0x, Bool.and_eq_true, beq_iff_eq, beq_iff_eq] at h
      obtain ⟨h1, h2⟩ := h
      subst h1
      subst h2
      rfl

theorem jsBigIntOfString_of_parseDec {s : String} {n : Nat}
    (h : parseDecDigits s.data = some n) : jsBigIntOfString s = some n := by
  have hne : s.data.isEmpty = false := by
    cases he : s.data.isEmpty
    · rfl
    · rw [parseDecDigits, if_pos he] at h; cases h
  have hsw : startsWith0x s.data = false := by
    cases hw : startsWith0x s.data
    · rfl
    · rw [parseDecDigits_of_startsWith0x hw] at h; cases h
  rw [jsBigIntOfString, hne, hsw]
  simpa using h

theorem data_ne_nil_of_parseDec {s : String} {n : Nat}
    (h : parseDecDigits s.data = some n) : s ≠ "" := by
  intro he
  subst he
  rw [show parseDecDigits "".data = none from rfl] at h
  cases h

theorem augmentTx_value (env : RpcEnv) (taker : String) (tx : Tx) :
    (augmentTx env taker tx).value = tx.value := by
  by_cases hc : env.configured
  · rcases hg : estimateGasWithBuffer env
        { fromAddr := taker, toAddr := tx.toAddr, data := tx.data, value := tx.value }
        with _ | g <;>
      rcases hf : suggestEip1559Fees env with _ | f <;>
      simp [augmentTx, hc, hg, hf]
  · simp [augmentTx, hc]

/-- Whether a `Phase1` outcome proceeds to the upstream network call. -/
def Phase1.isUpstreamCall : Phase1 → Bool
  | .reject _ _ => false
  | .callUpstream _ => true

/-! ## Claim theorems -/

/-- C9: for every valid base-10 unsigned integer string `s` (value `n`),
`decStringToHex s` is `"0x"` followed by the base-16 digits of `n`, and
`bnFromHex` applied to that hex string recovers exactly `n`. -/
theorem c9_decHex_roundtrip (s : String) (n : Nat)
    (h : parseDecDigits s.data = some n) :
    decStringToHex s = "0x" ++ String.mk (toHexList n) ∧
    bnFromHex (decStringToHex s) = some n := by
  have hne : s ≠ "" := data_ne_nil_of_parseDec h
  have hb : jsBigIntOfString s = some n := jsBigIntOfString_of_parseDec h
  have hd : decStringToHex s = toHex n := by
    rw [decStringToHex, if_neg hne, hb]
  exact ⟨hd, by rw [hd]; exact bnFromHex_toHex n⟩

/-- C9 witness: the round-trip at the concrete string `"255"`. -/
theorem c9_decHex_roundtrip_witness :
    decStringToHex "255" = "0xff" ∧ bnFromHex (decStringToHex "255") = some 255 := by
  obtain ⟨h1, h2⟩ := c9_decHex_roundtrip "255" 255 (by decide)
  refine ⟨?_, h2⟩
  rw [h1]
  decide

/-- C4: a `/swap` request without a `taker` field is rejected with HTTP 400
and a message naming the missing field, before any upstream call (the
handler returns `reject`, never `callUpstream`). -/
theorem c4_swap_missing_taker (b : ReqBody) (h : b.taker = none) :
    swapStep1 b = .reject 400 "Missing sellToken/buyToken/sellAmount/taker" ∧
    "Missing sellToken/buyToken/sellAmount/taker" =
      "Missing sellToken/buyToken/sellAmount/" ++ "taker" := by
  have ht : strTruthy b.taker = false := by rw [h]; rfl
  refine ⟨?_, by decide⟩
  rw [swapStep1, ht]
  simp

/-- C4 witness: a concrete body missing `taker` is rejected. -/
theorem c4_swap_missing_taker_witness :
    swapStep1
      { sellToken := some "ETH"
        buyToken := some "0xdAC17F958D2ee523a2206206994597C13D831ec7"
        sellAmount := some "1000000"
        taker := none
        slippagePercentage := none
        chainId := none } = .reject 400 "Missing sellToken/buyToken/sellAmount/taker" :=
  (c4_swap_missing_taker _ rfl).1

/-- C2 counterexample: on the `/swap` path a `sellToken` that is not the
sentinel, not `"ETH"`, and not a 20-byte hex address does NOT fail
validation — the handler proceeds to the upstream network call, refuting
the claim that both paths reject it with HTTP 400 before any network
call. -/
theorem c2_counterexample :
    Phase1.isUpstreamCall (swapStep1
      { sellToken := some "not-an-address"
        buyToken := some "also-not-an-address"
        sellAmount := some "100"
        taker := some "0x932bf0a8746c041c00131640123fa6c847835d6f"
        slippagePercentage := none
        chainId := none }) = true := by
  rfl

/-- C2 amended: only the `/quote` path validates token addresses: there, a
supplied token that is not the sentinel, not `"ETH"`, and not a 20-byte hex
address is rejected with HTTP 400 and an invalid-address message before
any upstream call. -/
theorem c2_quote_invalid_token (b : ReqBody)
    (hsell : strTruthy b.sellToken = true) (hbuy : strTruthy b.buyToken = true)
    (hamt : b.sellAmount.isNone = false) :
    (b.sellToken.getD "" ≠ ETH_SENTINEL → b.sellToken.getD "" ≠ "ETH" →
      isHexAddress (b.sellToken.getD "") = false →
      quoteStep1 b = .reject 400 "Invalid sellToken address") ∧
    ((b.sellToken.getD "" = ETH_SENTINEL ∨ b.sellToken.getD "" = "ETH" ∨
        isHexAddress (b.sellToken.getD "") = true) →
      b.buyToken.getD "" ≠ ETH_SENTINEL → b.buyToken.getD "" ≠ "ETH" →
      isHexAddress (b.buyToken.getD "") = false →
      quoteStep1 b = .reject 400 "Invalid buyToken address") := by
  constructor
  · intro h1 h2 h3
    rw [quoteStep1, hsell, hbuy, hamt]
    simp [beq_eq_false_iff_ne.mpr h1, beq_eq_false_iff_ne.mpr h2, h3]
  · intro hs h1 h2 h3
    rw [quoteStep1, hsell, hbuy, hamt]
    have hfirst : (!(b.sellToken.getD "" == ETH_SENTINEL) &&
        !(b.sellToken.getD "" == "ETH") && !isHexAddress (b.sellToken.getD "")) = false := by
      rcases hs with hs | hs | hs <;> simp [hs]
    simp only [Bool.not_true, Bool.false_or, Bool.or_false, if_false]
    simp [hfirst, beq_eq_false_iff_ne.mpr h1, beq_eq_false_iff_ne.mpr h2, h3]

/-- C2 amended witness: a concrete `/quote` body with an invalid
`sellToken` is rejected with the invalid-address message. -/
theorem c2_quote_invalid_token_witness :
    quoteStep1
      { sellToken := some "not-an-address"
        buyToken := some "ETH"
        sellAmount := some "100"
        taker := none
        slippagePercentage := none
        chainId := none } = .reject 400 "Invalid sellToken address" :=
  (c2_quote_invalid_token
    { sellToken := some "not-an-address"
      buyToken := some "ETH"
      sellAmount := some "100"
      taker := none
      slippagePercentage := none
      chainId := none } rfl rfl rfl).1 (by decide) (by decide) (by decide)

/-- C10: the sentinel comparison deciding the `value` derivation is
case-sensitive: a sell token that equals the sentinel only up to letter
case (a 40-hex-digit address, not the literal `"ETH"`) is not treated as
the native asset, so with no upstream transaction value the returned
transaction's `value` is `"0x0"`, not the hex-encoded sell amount. -/
theorem c10_sentinel_case_sensitive (s sAmt taker : String) (rawTx : RawTx) (env : RpcEnv)
    (haddr : isHexAddress s = true)
    (hci : s.data.map Char.toLower = ETH_SENTINEL.data.map Char.toLower)
    (hdiff : s ≠ ETH_SENTINEL) (hneth : s ≠ "ETH")
    (hto : strTruthy rawTx.toAddr = true) (hdata : strTruthy rawTx.data = true)
    (hval : rawTx.value = none) :
    ∃ tx, swapStep2 ⟨some rawTx⟩ (normTok s) sAmt taker env = .txResp tx ∧
      tx.value = "0x0" := by
  have hn : normTok s = s := by simp [normTok, hneth]
  refine ⟨augmentTx env taker (baseTx rawTx (normTok s) sAmt), ?_, ?_⟩
  · rw [swapStep2]
    simp [hto, hdata]
  · rw [augmentTx_value, baseTx, hn]
    simp [deriveValue, hdiff, hval]

/-- C10 witness: the all-lower-case spelling of the sentinel with no
upstream value yields `value = "0x0"`. -/
theorem c10_sentinel_case_sensitive_witness :
    ∃ tx, swapStep2
      ⟨some
        { toAddr := some "0xdef1c0ded9bec7f1a1670819833240f027b25eff"
          data := some "0xabcdef"
          value := none
          gas := none }⟩
      (normTok "0xeeeeeeeeeeeeeeeeeeeeeeeeeeeeeeeeeeeeeeee") "1000" "0xtaker"
      { configured := false
        estimateGas := fun _ => .throws
        getBlockLatest := .throws
        maxPriorityFeePerGas := .throws } = .txResp tx ∧
      tx.value = "0x0" :=
  c10_sentinel_case_sensitive "0xeeeeeeeeeeeeeeeeeeeeeeeeeeeeeeeeeeeeeeee" "1000" "0xtaker"
    _ _ (by decide) (by decide) (by decide) (by decide) rfl rfl rfl

/-- The code's clamp agrees with the spec's piecewise clamp for every
finite number. -/
theorem clampNumber_num_eq (f : ℚ) :
    clampNumber (.num f) 0 (1 / 5) =
      if f < 0 then 0 else if 1 / 5 < f then 1 / 5 else f := by
  rw [clampNumber]
  rcases lt_or_le f 0 with h | h
  · rw [if_pos h, max_eq_left h.le, min_eq_right]
    norm_num
  · rw [if_neg (not_lt.mpr h), max_eq_right h]
    rcases lt_or_le (1 / 5 : ℚ) f with h2 | h2
    · rw [if_pos h2, min_eq_left h2.le]
    · rw [if_neg (not_lt.mpr h2), min_eq_right h2]

/-- C1: the `value` of the transaction `/swap` returns.  When the
normalized sell token is the native sentinel, `value` is the sell amount
(a validated decimal string of value `n`) rendered as `"0x"` plus hex
digits; otherwise `value` is the upstream transaction value when present —
passed through if `0x`-prefixed, rendered to hex if a decimal string of
value `m` — and `"0x0"` when absent.  In particular the sentinel case with
`sellAmount = "1000000000000000000"` gives `"0xde0b6b3a7640000"` (see the
witness). -/
theorem c1_swap_value (rawTx : RawTx) (normSell sAmt taker : String) (env : RpcEnv)
    (hto : strTruthy rawTx.toAddr = true) (hdata : strTruthy rawTx.data = true) :
    ∃ tx, swapStep2 ⟨some rawTx⟩ normSell sAmt taker env = .txResp tx ∧
      ((normSell = ETH_SENTINEL → ∀ n, parseDecDigits sAmt.data = some n →
          tx.value = "0x" ++ String.mk (toHexList n)) ∧
       (normSell ≠ ETH_SENTINEL →
          (rawTx.value = none → tx.value = "0x0") ∧
          (∀ v, rawTx.value = some v → startsWith0x v.data = true → tx.value = v) ∧
          (∀ v m, rawTx.value = some v → startsWith0x v.data = false →
            parseDecDigits v.data = some m →
            tx.value = "0x" ++ String.mk (toHexList m)))) := by
  refine ⟨augmentTx env taker (baseTx rawTx normSell sAmt), ?_, ?_, ?_⟩
  · rw [swapStep2]
    simp [hto, hdata]
  · intro hsent n hn
    rw [augmentTx_value, baseTx]
    simp only [deriveValue, if_pos hsent]
    exact (c9_decHex_roundtrip sAmt n hn).1
  · intro hsent
    refine ⟨?_, ?_, ?_⟩
    · intro hv
      rw [augmentTx_value, baseTx]
      simp [deriveValue, hsent, hv]
    · intro v hv hsw
      rw [augmentTx_value, baseTx]
      simp [deriveValue, hsent, hv, hsw]
    · intro v m hv hsw hm
      rw [augmentTx_value, baseTx]
      simp only [deriveValue, if_neg hsent, hv, hsw]
      simpa using (c9_decHex_roundtrip v m hm).1

/-- C1 witness: selling the native asset with
`sellAmount = "1000000000000000000"` yields `value = "0xde0b6b3a7640000"`. -/
theorem c1_swap_value_witness :
    ∃ tx, swapStep2
      ⟨some
        { toAddr := some "0xdef1c0ded9bec7f1a1670819833240f027b25eff"
          data := some "0x1234"
          value := none
          gas := none }⟩
      ETH_SENTINEL "1000000000000000000" "0xtaker"
      { configured := false
        estimateGas := fun _ => .throws
        getBlockLatest := .throws
        maxPriorityFeePerGas := .throws } = .txResp tx ∧
      tx.value = "0xde0b6b3a7640000" := by
  obtain ⟨tx, h1, h2, _⟩ := c1_swap_value
    { toAddr := some "0xdef1c0ded9bec7f1a1670819833240f027b25eff"
      data := some "0x1234"
      value := none
      gas := none }
    ETH_SENTINEL "1000000000000000000" "0xtaker"
    { configured := false
      estimateGas := fun _ => .throws
      getBlockLatest := .throws
      maxPriorityFeePerGas := .throws } rfl rfl
  refine ⟨tx, h1, ?_⟩
  rw [h2 rfl 1000000000000000000 (by decide)]
  decide

/-- The integrator-fee guard of `buildParams` is satisfied by the
configured constants. -/
theorem feeCondition : FEE_RECIPIENT ≠ "" ∧ 0 < FEE_PERCENTAGE :=
  ⟨by decide, by norm_num [FEE_PERCENTAGE]⟩

/-- C3: the slippage basis points sent upstream.  For a supplied finite
number `f` the `slippageBps` query parameter is the decimal rendering of
`round(clamp(f, 0, 0.2) * 10000)` with clamping below 0 to 0 and above 0.2
to 0.2; when no number is supplied the default fraction `0.02` takes the
place of `f`. -/
theorem c3_slippage_bps (b : ParamsInput) :
    (∀ f : ℚ, b.slippagePercentage = some (.num f) →
      List.lookup "slippageBps" (buildParams b) =
        some (toString (jsRound ((if f < 0 then 0 else if 1 / 5 < f then 1 / 5 else f) * 10000)))) ∧
    (b.slippagePercentage = none →
      List.lookup "slippageBps" (buildParams b) =
        some (toString (jsRound ((1 / 50 : ℚ) * 10000)))) := by
  constructor
  · intro f hf
    rw [← clampNumber_num_eq]
    simp only [buildParams, hf, if_pos feeCondition]
    cases hb : b.taker with
    | none => rfl
    | some t =>
      by_cases ht : t = ""
      · simp only [if_pos ht]
        rfl
      · simp only [if_neg ht]
        rfl
  · intro hf
    rw [show ((1 / 50 : ℚ) * 10000) = clampNumber (.num (1 / 50)) 0 (1 / 5) * 10000 from by
      rw [clampNumber_num_eq]; norm_num]
    simp only [buildParams, hf, if_pos feeCondition]
    cases hb : b.taker with
    | none => rfl
    | some t =>
      by_cases ht : t = ""
      · simp only [if_pos ht]
        rfl
      · simp only [if_neg ht]
        rfl

/-- C3 witness: a supplied `f = 0.02` sends 200 bps, `f = 0.5` is clamped
to 2000 bps, `f = -1` is clamped to 0 bps, and an absent slippage uses the
default 0.02, sending 200 bps. -/
theorem c3_slippage_bps_witness :
    List.lookup "slippageBps" (buildParams
      { chainId := none
        sellToken := "0xA"
        buyToken := "0xB"
        sellAmount := "1"
        taker := none
        slippagePercentage := some (.num (1 / 50)) }) = some "200" ∧
    List.lookup "slippageBps" (buildParams
      { chainId := none
        sellToken := "0xA"
        buyToken := "0xB"
        sellAmount := "1"
        taker := none
        slippagePercentage := some (.num (1 / 2)) }) = some "2000" ∧
    List.lookup "slippageBps" (buildParams
      { chainId := none
        sellToken := "0xA"
        buyToken := "0xB"
        sellAmount := "1"
        taker := none
        slippagePercentage := some (.num (-1)) }) = some "0" ∧
    List.lookup "slippageBps" (buildParams
      { chainId := none
        sellToken := "0xA"
        buyToken := "0xB"
        sellAmount := "1"
        taker := none
        slippagePercentage := none }) = some "200" := by
  refine ⟨?_, ?_, ?_, ?_⟩
  · rw [(c3_slippage_bps
      { chainId := none
        sellToken := "0xA"
        buyToken := "0xB"
        sellAmount := "1"
        taker := none
        slippagePercentage := some (.num (1 / 50)) }).1 (1 / 50) rfl]
    norm_num [jsRound]
    rfl
  · rw [(c3_slippage_bps
      { chainId := none
        sellToken := "0xA"
        buyToken := "0xB"
        sellAmount := "1"
        taker := none
        slippagePercentage := some (.num (1 / 2)) }).1 (1 / 2) rfl]
    norm_num [jsRound]
    rfl
  · rw [(c3_slippage_bps
      { chainId := none
        sellToken := "0xA"
        buyToken := "0xB"
        sellAmount := "1"
        taker := none
        slippagePercentage := some (.num (-1)) }).1 (-1) rfl]
    norm_num [jsRound]
    rfl
  · rw [(c3_slippage_bps
      { chainId := none
        sellToken := "0xA"
        buyToken := "0xB"
        sellAmount := "1"
        taker := none
        slippagePercentage := none }).2 rfl]
    norm_num [jsRound]
    rfl

/-- C8: on any request body on which both handlers proceed to their
upstream call, the `/swap` parameter list is exactly the `/quote` parameter
list plus the trailing `intentOnFilling=true` — every shared parameter
(chainId, tokens, amount, slippageBps, taker, fee parameters) is assembled
identically. -/
theorem c8_params_agree (b : ReqBody) (p q : List (String × String))
    (hq : quoteStep1 b = .callUpstream p) (hs : swapStep1 b = .callUpstream q) :
    q = p ++ [("intentOnFilling", "true")] := by
  simp only [quoteStep1] at hq
  simp only [swapStep1] at hs
  repeat' split at hq
  any_goals cases hq
  repeat' split at hs
  any_goals cases hs
  rfl

/-- C8 witness: a concrete body on which both handlers proceed; the
hypotheses are discharged by evaluation and the parameter lists coincide
as stated. -/
theorem c8_params_agree_witness :
    buildParams
      { chainId := none
        sellToken := normTok "ETH"
        buyToken := normTok "0xdAC17F958D2ee523a2206206994597C13D831ec7"
        sellAmount := "1000"
        taker := some "0x932bf0a8746c041c00131640123fa6c847835d6f"
        slippagePercentage := none }
      ++ [("intentOnFilling", "true")] =
    buildParams
      { chainId := none
        sellToken := normTok "ETH"
        buyToken := normTok "0xdAC17F958D2ee523a2206206994597C13D831ec7"
        sellAmount := "1000"
        taker := some "0x932bf0a8746c041c00131640123fa6c847835d6f"
        slippagePercentage := none }
      ++ [("intentOnFilling", "true")] :=
  c8_params_agree
    { sellToken := some "ETH"
      buyToken := some "0xdAC17F958D2ee523a2206206994597C13D831ec7"
      sellAmount := some "1000"
      taker := some "0x932bf0a8746c041c00131640123fa6c847835d6f"
      slippagePercentage := none
      chainId := none } _ _ rfl rfl

/-- C5: with an RPC endpoint configured, the two augmentation steps are
independently best-effort.  The request always completes as a 200 with a
transaction; a failed gas estimate leaves the upstream-derived gas while
the fee fields are still set when the fee call succeeds; a failed fee call
leaves the fee fields absent while a successful estimate still sets gas;
and when the upstream supplied no gas and both calls fail the transaction
lacks `gas`, `maxFeePerGas` and `maxPriorityFeePerGas`. -/
theorem c5_augment_best_effort (rawTx : RawTx) (normSell sAmt taker : String) (env : RpcEnv)
    (hto : strTruthy rawTx.toAddr = true) (hdata : strTruthy rawTx.data = true)
    (hconf : env.configured = true) :
    swapStep2 ⟨some rawTx⟩ normSell sAmt taker env =
      .txResp (augmentTx env taker (baseTx rawTx normSell sAmt)) ∧
    (estimateGasWithBuffer env
        { fromAddr := taker
          toAddr := (baseTx rawTx normSell sAmt).toAddr
          data := (baseTx rawTx normSell sAmt).data
          value := (baseTx rawTx normSell sAmt).value } = none →
      (∀ f, suggestEip1559Fees env = some f →
        (augmentTx env taker (baseTx rawTx normSell sAmt)).gas = (baseTx rawTx normSell sAmt).gas ∧
        (augmentTx env taker (baseTx rawTx normSell sAmt)).maxFeePerGas = some f.maxFeePerGas ∧
        (augmentTx env taker (baseTx rawTx normSell sAmt)).maxPriorityFeePerGas =
          some f.maxPriorityFeePerGas)) ∧
    (suggestEip1559Fees env = none →
      (∀ g, estimateGasWithBuffer env
        { fromAddr := taker
          toAddr := (baseTx rawTx normSell sAmt).toAddr
          data := (baseTx rawTx normSell sAmt).data
          value := (baseTx rawTx normSell sAmt).value } = some g →
        (augmentTx env taker (baseTx rawTx normSell sAmt)).gas = some g ∧
        (augmentTx env taker (baseTx rawTx normSell sAmt)).maxFeePerGas = none ∧
        (augmentTx env taker (baseTx rawTx normSell sAmt)).maxPriorityFeePerGas = none)) ∧
    (rawTx.gas = none →
      estimateGasWithBuffer env
        { fromAddr := taker
          toAddr := (baseTx rawTx normSell sAmt).toAddr
          data := (baseTx rawTx normSell sAmt).data
          value := (baseTx rawTx normSell sAmt).value } = none →
      suggestEip1559Fees env = none →
      (augmentTx env taker (baseTx rawTx normSell sAmt)).gas = none ∧
      (augmentTx env taker (baseTx rawTx normSell sAmt)).maxFeePerGas = none ∧
      (augmentTx env taker (baseTx rawTx normSell sAmt)).maxPriorityFeePerGas = none) := by
  refine ⟨?_, ?_, ?_, ?_⟩
  · rw [swapStep2]
    simp [hto, hdata]
  · intro hg f hf
    simp [augmentTx, hconf, hg, hf]
  · intro hf g hg
    simp [augmentTx, hconf, hg, hf]
    simp [baseTx]
  · intro hgas hg hf
    have hbase : (baseTx rawTx normSell sAmt).gas = none := by
      simp [baseTx, hgas, normalizeGasField]
    simp [augmentTx, hconf, hg, hf, hbase]
    simp [baseTx]

/-- C5 witness: a concrete request in which the upstream quote carries no
gas and every RPC call fails still yields a transaction response whose
`gas`, `maxFeePerGas` and `maxPriorityFeePerGas` are all absent. -/
theorem c5_augment_best_effort_witness :
    swapStep2
      ⟨some
        { toAddr := some "0xdef1c0ded9bec7f1a1670819833240f027b25eff"
          data := some "0x1234"
          value := none
          gas := none }⟩
      "0xA" "10" "0xT"
      { configured := true
        estimateGas := fun _ => .throws
        getBlockLatest := .throws
        maxPriorityFeePerGas := .throws } =
      .txResp (augmentTx
        { configured := true
          estimateGas := fun _ => .throws
          getBlockLatest := .throws
          maxPriorityFeePerGas := .throws } "0xT"
        (baseTx
          { toAddr := some "0xdef1c0ded9bec7f1a1670819833240f027b25eff"
            data := some "0x1234"
            value := none
            gas := none } "0xA" "10")) ∧
    (augmentTx
      { configured := true
        estimateGas := fun _ => .throws
        getBlockLatest := .throws
        maxPriorityFeePerGas := .throws } "0xT"
      (baseTx
        { toAddr := some "0xdef1c0ded9bec7f1a1670819833240f027b25eff"
          data := some "0x1234"
          value := none
          gas := none } "0xA" "10")).gas = none ∧
    (augmentTx
      { configured := true
        estimateGas := fun _ => .throws
        getBlockLatest := .throws
        maxPriorityFeePerGas := .throws } "0xT"
      (baseTx
        { toAddr := some "0xdef1c0ded9bec7f1a1670819833240f027b25eff"
          data := some "0x1234"
          value := none
          gas := none } "0xA" "10")).maxFeePerGas = none ∧
    (augmentTx
      { configured := true
        estimateGas := fun _ => .throws
        getBlockLatest := .throws
        maxPriorityFeePerGas := .throws } "0xT"
      (baseTx
        { toAddr := some "0xdef1c0ded9bec7f1a1670819833240f027b25eff"
          data := some "0x1234"
          value := none
          gas := none } "0xA" "10")).maxPriorityFeePerGas = none := by
  obtain ⟨h1, _, _, h4⟩ := c5_augment_best_effort
    { toAddr := some "0xdef1c0ded9bec7f1a1670819833240f027b25eff"
      data := some "0x1234"
      value := none
      gas := none } "0xA" "10" "0xT"
    { configured := true
      estimateGas := fun _ => .throws
      getBlockLatest := .throws
      maxPriorityFeePerGas := .throws } rfl rfl rfl
  obtain ⟨g1, g2, g3⟩ := h4 rfl rfl rfl
  exact ⟨h1, g1, g2, g3⟩

/-- C6: the formulas of a successful augmentation.  A successful gas
estimate on the candidate transaction with `from = taker` whose result
parses to `g` overwrites `gas` with `hex(g + g / 5)`; a successful fee
suggestion with base fee `bf` and suggested tip `t` sets
`maxFeePerGas = hex(bf * 2 + t)` and `maxPriorityFeePerGas = hex(t)`, the
tip falling back to the fixed 1500000000 wei when the priority-fee call
throws. -/
theorem c6_gas_fee_formulas (tx : Tx) (taker : String) (env : RpcEnv)
    (hconf : env.configured = true) :
    (∀ gasHex g, env.estimateGas
        { fromAddr := taker, toAddr := tx.toAddr, data := tx.data, value := tx.value } =
          .returns gasHex →
      bnFromHex gasHex = some g →
      (augmentTx env taker tx).gas = some (toHex (g + g / 5))) ∧
    (∀ bfHex bf tipHex t,
      env.getBlockLatest = .returns (some { baseFeePerGas := some bfHex }) →
      bfHex ≠ "" → bnFromHex bfHex = some bf →
      env.maxPriorityFeePerGas = .returns tipHex → bnFromHex tipHex = some t →
      (augmentTx env taker tx).maxFeePerGas = some (toHex (bf * 2 + t)) ∧
      (augmentTx env taker tx).maxPriorityFeePerGas = some (toHex t)) ∧
    (∀ bfHex bf,
      env.getBlockLatest = .returns (some { baseFeePerGas := some bfHex }) →
      bfHex ≠ "" → bnFromHex bfHex = some bf →
      env.maxPriorityFeePerGas = .throws →
      (augmentTx env taker tx).maxFeePerGas = some (toHex (bf * 2 + 1500000000)) ∧
      (augmentTx env taker tx).maxPriorityFeePerGas = some (toHex 1500000000)) := by
  refine ⟨?_, ?_, ?_⟩
  · intro gasHex g henv hbn
    have hest : estimateGasWithBuffer env
        { fromAddr := taker, toAddr := tx.toAddr, data := tx.data, value := tx.value } =
          some (toHex (g + g / 5)) := by
      simp only [estimateGasWithBuffer, henv, hbn]
    rcases hf : suggestEip1559Fees env with _ | f <;>
      simp [augmentTx, hconf, hest, hf]
  · intro bfHex bf tipHex t hblk hbne hbf htip htbn
    have hfees : suggestEip1559Fees env =
        some { maxPriorityFeePerGas := toHex t, maxFeePerGas := toHex (bf * 2 + t) } := by
      simp only [suggestEip1559Fees, hblk]
      simp [hbne, hbf, htip, htbn]
    rcases hg : estimateGasWithBuffer env
        { fromAddr := taker, toAddr := tx.toAddr, data := tx.data, value := tx.value }
        with _ | g <;>
      simp [augmentTx, hconf, hg, hfees]
  · intro bfHex bf hblk hbne hbf htip
    have hfees : suggestEip1559Fees env =
        some { maxPriorityFeePerGas := toHex 1500000000
               maxFeePerGas := toHex (bf * 2 + 1500000000) } := by
      simp only [suggestEip1559Fees, hblk]
      simp [hbne, hbf, htip]
    rcases hg : estimateGasWithBuffer env
        { fromAddr := taker, toAddr := tx.toAddr, data := tx.data, value := tx.value }
        with _ | g <;>
      simp [augmentTx, hconf, hg, hfees]

/-- C6 witness: a concrete successful augmentation — estimate `0x64` (100)
gives a buffered gas of `0x78` (120), base fee `0x64` with tip `0x2` give
`maxFeePerGas = 0xca` (202) and `maxPriorityFeePerGas = 0x2`. -/
theorem c6_gas_fee_formulas_witness :
    (augmentTx
      { configured := true
        estimateGas := fun _ => .returns "0x64"
        getBlockLatest := .returns (some { baseFeePerGas := some "0x64" })
        maxPriorityFeePerGas := .returns "0x2" } "0xT"
      { toAddr := "0xD", data := "0x1", value := "0x0", gas := none
        maxFeePerGas := none, maxPriorityFeePerGas := none }).gas = some "0x78" ∧
    (augmentTx
      { configured := true
        estimateGas := fun _ => .returns "0x64"
        getBlockLatest := .returns (some { baseFeePerGas := some "0x64" })
        maxPriorityFeePerGas := .returns "0x2" } "0xT"
      { toAddr := "0xD", data := "0x1", value := "0x0", gas := none
        maxFeePerGas := none, maxPriorityFeePerGas := none }).maxFeePerGas = some "0xca" ∧
    (augmentTx
      { configured := true
        estimateGas := fun _ => .returns "0x64"
        getBlockLatest := .returns (some { baseFeePerGas := some "0x64" })
        maxPriorityFeePerGas := .returns "0x2" } "0xT"
      { toAddr := "0xD", data := "0x1", value := "0x0", gas := none
        maxFeePerGas := none, maxPriorityFeePerGas := none }).maxPriorityFeePerGas =
      some "0x2" := by
  obtain ⟨h1, h2, _⟩ := c6_gas_fee_formulas
    { toAddr := "0xD", data := "0x1", value := "0x0", gas := none
      maxFeePerGas := none, maxPriorityFeePerGas := none } "0xT"
    { configured := true
      estimateGas := fun _ => .returns "0x64"
      getBlockLatest := .returns (some { baseFeePerGas := some "0x64" })
      maxPriorityFeePerGas := .returns "0x2" } rfl
  obtain ⟨f1, f2⟩ := h2 "0x64" 100 "0x2" 2 rfl (by decide) (by decide) rfl (by decide)
  refine ⟨?_, ?_, ?_⟩
  · rw [h1 "0x64" 100 rfl (by decide)]
    decide
  · rw [f1]
    decide
  · rw [f2]
    decide

/-- C7: a non-success upstream status makes `call0x` throw an error
carrying that status and the upstream body — parsed JSON when parseable,
the raw-text wrapper otherwise — and the `/quote` catch block answers with
the same status and a body whose message is the upstream's message. -/
theorem c7_upstream_error (resp : FetchResp)
    (hok : respOk resp.status = false) (hnz : resp.status ≠ 0) :
    (∀ m, resp.text ≠ "" → resp.parsed = some { message := some m } → m ≠ "" →
      call0x resp = .error
        { status := resp.status, message := m, details := .obj { message := some m } } ∧
      quoteCatch
        { status := resp.status, message := m, details := .obj { message := some m } } =
        (resp.status, { message := m, details := some (.obj { message := some m }) })) ∧
    (resp.text ≠ "" → resp.parsed = none →
      call0x resp = .error
        { status := resp.status
          message := "0x request failed: " ++ toString resp.status
          details := .rawWrap resp.text }) := by
  constructor
  · intro m htext hparsed hm
    constructor
    · rw [call0x]
      simp [htext, hparsed, hok, dataMessage, hm]
    · rw [quoteCatch]
      simp [hnz, hm]
  · intro htext hparsed
    rw [call0x]
    simp [htext, hparsed, hok, dataMessage]

/-- C7 witness: an upstream 400 whose body parses to
`{message: "no Route matched"}` throws a 400 error with that message, and
the proxy answers 400 with that message in its body. -/
theorem c7_upstream_error_witness :
    call0x { status := 400, text := "\x7b\x22message\x22:\x22no Route matched\x22\x7d", parsed := some { message := some "no Route matched" } } =
      .error { status := 400, message := "no Route matched"
               details := .obj { message := some "no Route matched" } } ∧
    quoteCatch { status := 400, message := "no Route matched"
                 details := .obj { message := some "no Route matched" } } =
      (400, { message := "no Route matched"
              details := some (.obj { message := some "no Route matched" }) }) := by
  obtain ⟨h, _⟩ := c7_upstream_error
    { status := 400, text := "\x7b\x22message\x22:\x22no Route matched\x22\x7d", parsed := some { message := some "no Route matched" } }
    (by decide) (by decide)
  exact h "no Route matched" (by decide) rfl (by decide)

end GDex
